import Mathlib

/-!
Shallow embedding of the plan-execution core of `browser_actions.py`
(`class BrowserAgent`): the action methods (`navigate`, `type_text`,
`click_element`, `wait`, `extract_text`, `scroll_window`, `ask_user`) and the
interpreter `execute_plan`.  The live browser is modelled by per-step outcome
environments (which element waits resolve, which faults the driver raises);
each Lean function mirrors the Python control flow of the corresponding method,
including its try/except structure.
-/

namespace Agent

/-- A Python value as it occurs in a JSON-derived plan step: a string, an
integer, a boolean, or `None`. -/
inductive Value where
  | str (s : String)
  | int (n : Int)
  | bool (b : Bool)
  | none
deriving DecidableEq

/-- Python truthiness (`if v:`): empty string, `0`, `False` and `None` are
falsy, everything else truthy. -/
def Value.truthy : Value → Bool
  | .str s => s ≠ ""
  | .int n => n ≠ 0
  | .bool b => b
  | .none => false

/-- Python `str(v)` as used by f-string interpolation. -/
def Value.pyStr : Value → String
  | .str s => s
  | .int n => toString n
  | .bool b => if b then "True" else "False"
  | .none => "None"

/-- Python `repr(v)` (strings quoted), as used when a dict is interpolated. -/
def Value.pyRepr : Value → String
  | .str s => "'" ++ s ++ "'"
  | .int n => toString n
  | .bool b => if b then "True" else "False"
  | .none => "None"

/-- A plan step: a Python dict with string keys, modelled as an association
list (keys distinct, insertion-ordered, as produced by JSON parsing). -/
abbrev Step := List (String × Value)

/-- Raw lookup distinguishing an absent key from a stored `None`. -/
def Step.lookupVal : Step → String → Option Value
  | [], _ => Option.none
  | (k', v) :: rest, k => if k' = k then some v else Step.lookupVal rest k

/-- Python `step.get(k)`: the stored value, or `None` when the key is absent. -/
def Step.pyGet (st : Step) (k : String) : Value :=
  (st.lookupVal k).getD Value.none

/-- Python `step.get(k, d)`: the stored value, or the default `d` when absent. -/
def Step.pyGetD (st : Step) (k : String) (d : Value) : Value :=
  (st.lookupVal k).getD d

/-- Python exceptions that arise in the plan-execution core: `KeyError` from a
subscript on a missing key, `ValueError` (bad `int()` literal, missing url,
negative sleep), and `TypeError` standing for any other `Exception`. -/
inductive PyExc where
  | keyError (key : String)
  | valueError (msg : String)
  | typeError (msg : String)
deriving DecidableEq

/-- Python `step[k]`: the stored value, or a `KeyError` when the key is
absent. -/
def Step.getItem (st : Step) (k : String) : Except PyExc Value :=
  match st.lookupVal k with
  | some v => Except.ok v
  | Option.none => Except.error (PyExc.keyError k)

/-- Python `repr` of a step dict, as interpolated into failure messages
(`f"... Params: \x7bstep\x7d."`). -/
def Step.pyRepr (st : Step) : String :=
  "\x7b" ++ String.intercalate ", "
    (st.map (fun p => "'" ++ p.1 ++ "': " ++ p.2.pyRepr)) ++ "\x7d"

/-- The Extracted-Data Store `self.extracted_data`: a dict from keys (the
`variable_name` values, arbitrary Python values) to extracted strings or the
explicit absent marker `None` (modelled as `Option.none`). -/
abbrev Store := List (Value × Option String)

/-- Dict assignment `store[k] = v`: update in place, or append a new entry. -/
def Store.set : Store → Value → Option String → Store
  | [], k, v => [(k, v)]
  | (k', v') :: rest, k, v =>
    if k' = k then (k, v) :: rest else (k', v') :: Store.set rest k v

/-- Dict lookup in the store, distinguishing an unbound name (`Option.none`)
from a name bound to the absent marker (`some Option.none`). -/
def Store.lookupVal : Store → Value → Option (Option String)
  | [], _ => Option.none
  | (k', v) :: rest, k => if k' = k then some v else Store.lookupVal rest k

/-- Surrounding-whitespace strip over a character list, as Python `int()`
applies to a string argument before parsing. -/
def pyTrimChars (l : List Char) : List Char :=
  ((l.dropWhile Char.isWhitespace).reverse.dropWhile Char.isWhitespace).reverse

/-- A non-empty run of decimal digits as a number, `none` otherwise. -/
def digitsToNat : List Char → Option Nat
  | [] => Option.none
  | l =>
    if l.all (fun c => c.isDigit) then
      some (l.foldl (fun acc c => acc * 10 + (c.toNat - 48)) 0)
    else Option.none

/-- Python `int(v)` on a plan value: integers pass through, booleans become
0/1, strings are parsed as optionally-signed decimal literals (surrounding
whitespace allowed) raising `ValueError` otherwise, and `None` raises
`TypeError`. -/
def pyInt (v : Value) : Except PyExc Int :=
  match v with
  | .int n => Except.ok n
  | .bool b => Except.ok (if b then 1 else 0)
  | .str s =>
    let parsed : Option Int :=
      match pyTrimChars s.data with
      | [] => Option.none
      | c :: rest =>
        if c = '-' then (digitsToNat rest).map (fun n => -(n : Int))
        else if c = '+' then (digitsToNat rest).map (fun n => (n : Int))
        else (digitsToNat (c :: rest)).map (fun n => (n : Int))
    match parsed with
    | some n => Except.ok n
    | Option.none =>
      Except.error (PyExc.valueError
        ("invalid literal for int() with base 10: '" ++ s ++ "'"))
  | .none =>
    Except.error (PyExc.typeError
      "int() argument must be a string, a bytes-like object or a real number, not 'NoneType'")

/-- A fault raised by a driver primitive, named after the selenium exception
classes caught in `browser_actions.py` (`other` covers every remaining
`Exception`). -/
inductive Fault where
  | timeout
  | noSuchElement
  | notInteractable
  | stale
  | other
deriving DecidableEq

/-- Outcome environment for one `navigate` call: `True` when `driver.get` plus
the ready-state poll succeed.  Every exception inside `navigate` is caught and
mapped to `False`, so a plain boolean captures its observable result. -/
def navigate (navOk : Bool) (url : Value) : Bool :=
  navOk

/-- Keystroke-level events performed by `type_text` on the resolved element:
`element.clear()`, `element.send_keys(text)`, and the terminal
`element.send_keys(Keys.RETURN)` submit keypress. -/
inductive TEvent where
  | cleared
  | keys (text : Value)
  | submit
deriving DecidableEq

/-- Outcome environment for one `type_text` call: the result of the presence
wait `_find_element`, the element's displayed/enabled flags, and the same
flags re-checked after the scroll-into-view attempt. -/
structure TypeEnv where
  find : Option Fault
  displayed : Bool
  enabled : Bool
  displayedAfterScroll : Bool
  enabledAfterScroll : Bool
deriving DecidableEq

/-- `BrowserAgent.type_text` (lines 94-121): wait for presence; if the element
is not displayed or not enabled, scroll into view and re-check once, raising
not-interactable if still bad; then clear, send the text, and send RETURN when
`enter_after`.  Every exception is caught and mapped to `False`; the returned
list records the keystroke events that were performed. -/
def type_text (env : TypeEnv) (text : Value) (enter_after : Bool) :
    Bool × List TEvent :=
  match env.find with
  | some _ => (false, [])
  | Option.none =>
    if (env.displayed && env.enabled) ||
       (env.displayedAfterScroll && env.enabledAfterScroll) then
      (true, TEvent.cleared :: TEvent.keys text ::
        (if enter_after then [TEvent.submit] else []))
    else
      (false, [])

/-- Outcome environment for one `click_element` call: the fault (if any) from
the clickability wait `_find_clickable_element`, the fault (if any) from the
native `element.click()`, and for the JS fallback the result of the
presence-only re-resolution `_find_element` plus whether the scripted click
raises. -/
structure ClickEnv where
  find : Option Fault
  clickFault : Option Fault
  refind : Option Fault
  jsClickRaises : Bool
deriving DecidableEq

/-- `BrowserAgent.click_element` (lines 123-155): wait for clickability, then
native click.  The first fault of the try block selects the handler:
timeout/no-such-element, stale and generic faults map to `False`; a
not-interactable fault triggers exactly one fallback, a scripted click against
a freshly re-resolved element found with the presence-only wait (bypassing the
clickability check), succeeding iff that re-resolution and the scripted click
both succeed.  Returns (success, number of fallback attempts). -/
def click_element (env : ClickEnv) : Bool × Nat :=
  match (match env.find with | some f => some f | Option.none => env.clickFault) with
  | Option.none => (true, 0)
  | some Fault.timeout => (false, 0)
  | some Fault.noSuchElement => (false, 0)
  | some Fault.notInteractable =>
    match env.refind with
    | some _ => (false, 1)
    | Option.none => (if env.jsClickRaises then false else true, 1)
  | some Fault.stale => (false, 0)
  | some Fault.other => (false, 0)

/-- `BrowserAgent.wait` (lines 157-160): `time.sleep(seconds)` then `True`.
`time.sleep` raises `ValueError` on a negative argument, and `wait` has no
handler, so the fault propagates to the caller. -/
def wait (seconds : Int) : Except PyExc Bool :=
  if seconds < 0 then
    Except.error (PyExc.valueError "sleep length must be non-negative")
  else
    Except.ok true

/-- Outcome environment for one `extract_text` call: the result of the
presence wait, whether reading text/attributes raises, and the element's
visible text, `value` attribute and `innerText` attribute (an attribute read
yields `None` or a string). -/
structure ExtractEnv where
  find : Option Fault
  readFault : Bool
  text : String
  valueAttr : Option String
  innerTextAttr : Option String
deriving DecidableEq

/-- Python truthiness of an `Optional[str]`: `None` and `""` are falsy. -/
def optTruthy : Option String → Bool
  | Option.none => false
  | some s => s ≠ ""

/-- `BrowserAgent.extract_text` (lines 162-178): wait for presence, compute
`element.text or element.get_attribute("value") or element.get_attribute("innerText")`,
and store its stripped value (or `""` when the chain is falsy) under
`variable_name`; on any exception store the absent marker `None` and report
failure.  Returns (success, the single store write performed). -/
def extract_text (env : ExtractEnv) (variable_name : Value) :
    Bool × (Value × Option String) :=
  match env.find with
  | some _ => (false, (variable_name, Option.none))
  | Option.none =>
    if env.readFault then
      (false, (variable_name, Option.none))
    else
      let text_content : Option String :=
        if env.text ≠ "" then some env.text
        else if optTruthy env.valueAttr then env.valueAttr
        else env.innerTextAttr
      let stored : String :=
        match text_content with
        | some s => if s = "" then "" else s.trim
        | Option.none => ""
      (true, (variable_name, some stored))

/-- ASCII lower-casing of one character, as Python's `str.lower` acts on the
direction strings involved. -/
def lowerChar (c : Char) : Char :=
  if 'A' ≤ c ∧ c ≤ 'Z' then Char.ofNat (c.toNat + 32) else c

/-- Python `s.lower()` on ASCII strings. -/
def pyLower (s : String) : String :=
  String.mk (s.data.map lowerChar)

/-- `BrowserAgent.scroll_window` (lines 180-198): lower-case the direction and
dispatch to one of the four window-scroll scripts; an unrecognized direction
(or a non-string one, whose `.lower()` raises inside the try block) returns
`False`.  Every exception is caught by the generic handler, so the result is a
plain boolean and nothing propagates past the action boundary.  `execRaises`
is the environment's verdict on whether the issued scroll script raises. -/
def scroll_window (execRaises : Bool) (direction : Value) (pixels : Int) : Bool :=
  match direction with
  | .str d =>
    let dl := pyLower d
    if dl = "down" || dl = "up" || dl = "to_bottom" || dl = "to_top" then
      !execRaises
    else
      false
  | _ => false

/-- One dispatch of an Action Library operation by the interpreter, with the
arguments the Python code passes (`ask_user` aside, these are the calls at
lines 231-246 of `execute_plan`). -/
inductive Op where
  | navigate (url : Value)
  | typeText (selType selVal text : Value) (enter : Bool)
  | click (selType selVal : Value)
  | wait (seconds : Int)
  | extractText (selType selVal var : Value)
  | scroll (direction : Value) (pixels : Int)
  | askUser (question : Value)
deriving DecidableEq

/-- The browser world's outcomes for the operations of one step, plus the
operator's `ask_user` answer. -/
structure StepOutcome where
  navOk : Bool
  typeEnv : TypeEnv
  clickEnv : ClickEnv
  extractEnv : ExtractEnv
  scrollExecRaises : Bool
  askAnswer : String

/-- Environment for a whole run: the world's outcomes for each step index. -/
abbrev Env := Nat → StepOutcome

/-- Result of interpreting one step of the loop body of `execute_plan`
(lines 223-287): the step ran and reported a boolean (`done`, with the store
writes and operation dispatches it performed), the step was an `error`-variant
record (`planError`, carrying `step.get('message')`), the `action`
discriminant was unrecognized (`unknownAction`), or an exception escaped the
dispatch (`raised`, with the dispatches performed before the raise). -/
inductive StepOut where
  | done (success : Bool) (writes : List (Value × Option String))
      (events : List Op)
  | planError (msg : Value)
  | unknownAction (action : Value)
  | raised (e : PyExc) (events : List Op)
deriving DecidableEq

/-- The operation dispatches a step outcome performed. -/
def StepOut.events : StepOut → List Op
  | .done _ _ evs => evs
  | .raised _ evs => evs
  | _ => []

/-- The step completed with `step_success = True`. -/
def StepOut.isOk : StepOut → Bool
  | .done true _ _ => true
  | _ => false

/-- The step completed with `step_success = False` (dispatched operation
reported failure). -/
def StepOut.isFail : StepOut → Bool
  | .done false _ _ => true
  | _ => false

/-- The body of the `for` loop of `execute_plan` for step `step` at index `i`
(lines 224-261): read the `action` discriminant with `step.get("action")` and
dispatch, mirroring the Python branch order, key subscripts (left to right,
raising `KeyError` on a missing key), `int(...)` conversions, and the
`error`/unknown-action terminal branches.  The outcome of each dispatched
operation is drawn from `o`. -/
def runStep (o : StepOutcome) (i : Nat) (step : Step) : StepOut :=
  let action := step.pyGet "action"
  if action = Value.str "navigate" then
    let url := step.pyGet "url"
    if url.truthy then
      .done (navigate o.navOk url) [] [Op.navigate url]
    else
      .raised (PyExc.valueError "'url' missing for navigate action.") []
  else if action = Value.str "type" then
    match step.getItem "selector_type" with
    | .error e => .raised e []
    | .ok selType =>
      match step.getItem "selector_value" with
      | .error e => .raised e []
      | .ok selVal =>
        match step.getItem "text" with
        | .error e => .raised e []
        | .ok text =>
          let enter := (step.pyGetD "enter_after" (Value.bool false)).truthy
          .done (type_text o.typeEnv text enter).1 []
            [Op.typeText selType selVal text enter]
  else if action = Value.str "click" then
    match step.getItem "selector_type" with
    | .error e => .raised e []
    | .ok selType =>
      match step.getItem "selector_value" with
      | .error e => .raised e []
      | .ok selVal =>
        .done (click_element o.clickEnv).1 [] [Op.click selType selVal]
  else if action = Value.str "wait" then
    match step.getItem "seconds" with
    | .error e => .raised e []
    | .ok v =>
      match pyInt v with
      | .error e => .raised e []
      | .ok n =>
        match wait n with
        | .ok b => .done b [] [Op.wait n]
        | .error e => .raised e [Op.wait n]
  else if action = Value.str "extract_text" then
    match step.getItem "selector_type" with
    | .error e => .raised e []
    | .ok selType =>
      match step.getItem "selector_value" with
      | .error e => .raised e []
      | .ok selVal =>
        match step.getItem "variable_name" with
        | .error e => .raised e []
        | .ok var =>
          let r := extract_text o.extractEnv var
          .done r.1 [r.2] [Op.extractText selType selVal var]
  else if action = Value.str "scroll" then
    let dir := step.pyGetD "direction" (Value.str "down")
    match pyInt (step.pyGetD "pixels" (Value.int 0)) with
    | .error e => .raised e []
    | .ok px =>
      .done (scroll_window o.scrollExecRaises dir px) [] [Op.scroll dir px]
  else if action = Value.str "ask_user" then
    match step.getItem "question" with
    | .error e => .raised e []
    | .ok q =>
      .done true [(Value.str ("user_response_to_" ++ toString (i + 1)),
        some o.askAnswer)] [Op.askUser q]
  else if action = Value.str "error" then
    .planError (step.pyGet "message")
  else
    .unknownAction action

/-- Apply a step's store writes in order. -/
def applyWrites (store : Store) : List (Value × Option String) → Store
  | [] => store
  | (k, v) :: rest => applyWrites (store.set k v) rest

/-- The abort message built by the exception handlers of `execute_plan`
(lines 273-287): `KeyError` → missing parameter, `ValueError` → invalid
parameter, any other exception → unexpected error, each naming the action. -/
def excMsg (action : Value) (e : PyExc) : String :=
  match e with
  | .keyError k =>
    "Missing parameter for action '" ++ action.pyStr ++ "': '" ++ k ++ "'."
  | .valueError m =>
    "Invalid parameter for action '" ++ action.pyStr ++ "': " ++ m ++ "."
  | .typeError m =>
    "Unexpected error during action '" ++ action.pyStr ++ "': " ++ m ++ "."

/-- The verdict of `execute_plan`: the `(executed_successfully,
error_message_for_llm)` pair (the message is a `Value`, since the `error`
branch passes `step.get('message')` through unchanged and the initial value is
`None`), the final Extracted-Data Store, and the list of operation dispatches
performed, tagged with their step index. -/
structure ExecResult where
  success : Bool
  errMsg : Value
  store : Store
  trace : List (Nat × Op)
deriving DecidableEq

/-- The `for` loop of `execute_plan` from step index `i` on: run each step in
order; a `done true` advances, every other outcome sets
`executed_successfully = False`, records the first error message, and breaks.
The failure message for a reported-failure step is
`f"Action '\x7baction\x7d' failed. Params: \x7bstep\x7d."` (line 265), the
unknown-action message is from line 260, and exception messages are from the
handlers at lines 273-287. -/
def execGo (env : Env) : List Step → Nat → Store → ExecResult
  | [], _, store => ⟨true, Value.none, store, []⟩
  | step :: rest, i, store =>
    match runStep (env i) i step with
    | .done true ws evs =>
      let r := execGo env rest (i + 1) (applyWrites store ws)
      ⟨r.success, r.errMsg, r.store, evs.map (fun op => (i, op)) ++ r.trace⟩
    | .done false ws evs =>
      ⟨false,
        Value.str ("Action '" ++ (step.pyGet "action").pyStr ++
          "' failed. Params: " ++ step.pyRepr ++ "."),
        applyWrites store ws, evs.map (fun op => (i, op))⟩
    | .planError m => ⟨false, m, store, []⟩
    | .unknownAction a =>
      ⟨false, Value.str ("Unknown action '" ++ a.pyStr ++ "' in plan."),
        store, []⟩
    | .raised e evs =>
      ⟨false, Value.str (excMsg (step.pyGet "action") e), store,
        evs.map (fun op => (i, op))⟩

/-- `BrowserAgent.execute_plan` (lines 214-295): refuse when the driver is not
initialized, otherwise walk the plan from step 0.  A total function: every
fault of a step is converted into an aborted verdict, never re-raised. -/
def execute_plan (env : Env) (driverOk : Bool) (plan : List Step)
    (store : Store) : ExecResult :=
  if driverOk then execGo env plan 0 store
  else ⟨false, Value.str "Browser not initialized.", store, []⟩

/-- A benign world: every wait resolves, elements are interactable, nothing
raises, the sample page text is "sample", the operator answers "yes". -/
def defaultOutcome : StepOutcome :=
  ⟨true, ⟨Option.none, true, true, true, true⟩,
    ⟨Option.none, Option.none, Option.none, false⟩,
    ⟨Option.none, false, "sample", Option.none, Option.none⟩,
    false, "yes"⟩

/-- The benign world at every step. -/
def defEnv : Env := fun _ => defaultOutcome

/-- A world whose clicks fail with a generic driver fault. -/
def clickFailOutcome : StepOutcome :=
  { defaultOutcome with
    clickEnv := ⟨Option.none, some Fault.other, Option.none, false⟩ }

/-- The click-failing world at every step. -/
def clickFailEnv : Env := fun _ => clickFailOutcome

/-- A concrete click step. -/
def clickStep : Step :=
  [("action", Value.str "click"), ("selector_type", Value.str "css"),
   ("selector_value", Value.str "#submit")]

/-- A concrete planner-signaled error record. -/
def errorStep : Step :=
  [("action", Value.str "error"), ("message", Value.str "planner refused")]

/-- A concrete type step with its `selector_value` key missing. -/
def typoStep : Step :=
  [("action", Value.str "type"), ("selector_type", Value.str "css")]

/-- A concrete five-step plan exercising each of the main actions. -/
def demoPlan : List Step :=
  [[("action", Value.str "navigate"), ("url", Value.str "https://example.test")],
   [("action", Value.str "type"), ("selector_type", Value.str "name"),
    ("selector_value", Value.str "q"), ("text", Value.str "hello"),
    ("enter_after", Value.bool true)],
   [("action", Value.str "wait"), ("seconds", Value.int 1)],
   [("action", Value.str "extract_text"), ("selector_type", Value.str "xpath"),
    ("selector_value", Value.str "//h1"), ("variable_name", Value.str "title")],
   [("action", Value.str "scroll"), ("direction", Value.str "down"),
    ("pixels", Value.int 300)]]

/-- The first non-empty string among a priority-ordered list of optional
sources (the spec's reading order: visible text, then the value attribute,
then the inner-text attribute). -/
def firstNonEmpty : List (Option String) → Option String
  | [] => Option.none
  | Option.none :: rest => firstNonEmpty rest
  | some s :: rest => if s = "" then firstNonEmpty rest else some s

deriving instance DecidableEq for Except

/-- Dispatches recorded from step index `k` over `xs` stay within
`[k, k + xs.length)`. -/
theorem execGo_trace_bound (env : Env) :
    ∀ (xs : List Step) (k : Nat) (s : Store),
      ∀ p ∈ (execGo env xs k s).trace, k ≤ p.1 ∧ p.1 < k + xs.length := by
  intro xs
  induction xs with
  | nil => intro k s p hp; simp [execGo] at hp
  | cons step rest ih =>
    intro k s p hp
    rw [execGo] at hp
    cases h : runStep (env k) k step with
    | done b ws evs =>
      cases b with
      | true =>
        simp only [h] at hp
        simp only [List.mem_append, List.mem_map] at hp
        rcases hp with ⟨op, _, hop⟩ | hp
        · simp only [← hop, List.length_cons]
          omega
        · have := ih (k + 1) (applyWrites s ws) p hp
          simp only [List.length_cons]
          omega
      | false =>
        simp only [h] at hp
        simp only [List.mem_map] at hp
        obtain ⟨op, _, hop⟩ := hp
        simp only [← hop, List.length_cons]
        omega
    | planError m => simp only [h] at hp; simp at hp
    | unknownAction a => simp only [h] at hp; simp at hp
    | raised e evs =>
      simp only [h] at hp
      simp only [List.mem_map] at hp
      obtain ⟨op, _, hop⟩ := hp
      simp only [← hop, List.length_cons]
      omega

/-- Composition: a run over `xs ++ ys` whose `xs` part fully succeeds is the
`xs` run followed by the `ys` run from the resulting store, with the traces
concatenated. -/
theorem execGo_append_ok (env : Env) :
    ∀ (xs ys : List Step) (k : Nat) (s : Store),
      (execGo env xs k s).success = true →
      execGo env (xs ++ ys) k s =
        ⟨(execGo env ys (k + xs.length) (execGo env xs k s).store).success,
         (execGo env ys (k + xs.length) (execGo env xs k s).store).errMsg,
         (execGo env ys (k + xs.length) (execGo env xs k s).store).store,
         (execGo env xs k s).trace ++
           (execGo env ys (k + xs.length) (execGo env xs k s).store).trace⟩ := by
  intro xs
  induction xs with
  | nil => intro ys k s _; simp [execGo]
  | cons step rest ih =>
    intro ys k s hsucc
    rw [execGo] at hsucc
    cases h : runStep (env k) k step with
    | done b ws evs =>
      cases b with
      | true =>
        simp only [h] at hsucc
        have ih' := ih ys (k + 1) (applyWrites s ws) hsucc
        have harith : k + 1 + rest.length = k + (rest.length + 1) := by omega
        show execGo env (step :: (rest ++ ys)) k s = _
        simp [execGo, h, ih', harith, List.append_assoc]
      | false => simp [h] at hsucc
    | planError m => simp [h] at hsucc
    | unknownAction a => simp [h] at hsucc
    | raised e evs => simp [h] at hsucc

/-- C3: for every `extract_text(selector, variable_name)` call: when the
selector resolves and visible text, `value` attribute and `innerText`
attribute are all empty (empty string or absent), the store write binds
`variable_name` to the explicit empty string and the call succeeds; when the
presence wait times out, the write binds `variable_name` to the absent marker
`None` (distinct from the empty string) and the call fails; when some source
is non-empty, the stored value is the stripped first non-empty of visible
text, `value` attribute, `innerText` attribute, in that priority order. -/
theorem extract_text_contract (env : ExtractEnv) (var : Value) (s : String) :
    (env.find = Option.none → env.readFault = false → env.text = "" →
      optTruthy env.valueAttr = false → optTruthy env.innerTextAttr = false →
      extract_text env var = (true, (var, some ""))) ∧
    (env.find = some Fault.timeout →
      extract_text env var = (false, (var, Option.none)) ∧
      (Option.none : Option String) ≠ some "") ∧
    (env.find = Option.none → env.readFault = false →
      firstNonEmpty [some env.text, env.valueAttr, env.innerTextAttr] = some s →
      extract_text env var = (true, (var, some s.trim))) := by
  obtain ⟨f, rf, tx, va, ia⟩ := env
  refine ⟨?_, ?_, ?_⟩
  · intro hf hr ht hv hi
    subst hf hr ht
    cases ia <;> cases va <;> simp_all [extract_text, optTruthy]
  · intro hf
    subst hf
    exact ⟨rfl, by simp⟩
  · intro hf hr hs
    subst hf hr
    by_cases ht : tx = ""
    · subst ht
      simp only [firstNonEmpty, if_pos rfl] at hs
      cases va with
      | none =>
        simp only [firstNonEmpty] at hs
        cases ia with
        | none => simp [firstNonEmpty] at hs
        | some u =>
          simp only [firstNonEmpty] at hs
          by_cases hu : u = ""
          · simp [hu] at hs
          · simp only [if_neg hu] at hs
            cases hs
            simp [extract_text, optTruthy, hu]
      | some t =>
        by_cases htt : t = ""
        · subst htt
          simp only [firstNonEmpty, if_pos rfl] at hs
          cases ia with
          | none => simp [firstNonEmpty] at hs
          | some u =>
            simp only [firstNonEmpty] at hs
            by_cases hu : u = ""
            · simp [hu] at hs
            · simp only [if_neg hu] at hs
              cases hs
              simp [extract_text, optTruthy, hu]
        · simp only [firstNonEmpty, if_neg htt] at hs
          cases hs
          simp [extract_text, optTruthy, htt]
    · simp only [firstNonEmpty, if_neg ht] at hs
      cases hs
      simp [extract_text, ht]

/-- Witness for C3 at concrete worlds: all-empty sources store `""` with
success; a timed-out wait stores `None` with failure; a non-empty `value`
attribute behind an empty visible text is stored stripped. -/
theorem extract_text_contract_witness :
    extract_text ⟨Option.none, false, "", Option.none, some ""⟩
      (Value.str "v") = (true, (Value.str "v", some "")) ∧
    extract_text ⟨some Fault.timeout, false, "x", Option.none, Option.none⟩
      (Value.str "v") = (false, (Value.str "v", Option.none)) ∧
    extract_text ⟨Option.none, false, "", some " hi ", Option.none⟩
      (Value.str "v") = (true, (Value.str "v", some (" hi ".trim))) :=
  ⟨(extract_text_contract ⟨Option.none, false, "", Option.none, some ""⟩
      (Value.str "v") "").1 rfl rfl rfl (by decide) (by decide),
   ((extract_text_contract ⟨some Fault.timeout, false, "x", Option.none,
      Option.none⟩ (Value.str "v") "").2.1 rfl).1,
   (extract_text_contract ⟨Option.none, false, "", some " hi ", Option.none⟩
      (Value.str "v") " hi ").2.2 rfl rfl (by decide)⟩

/-- C4: for every `click(selector)` call whose clickability wait succeeded and
whose native click raises not-interactable, exactly one fallback (the scripted
click against a presence-only re-resolved element) is attempted, and the step
succeeds iff that fallback succeeds (re-resolution succeeds and the scripted
click does not raise); a stale-element fault instead fails with no fallback
attempted. -/
theorem click_fallback_contract (env : ClickEnv)
    (hfind : env.find = Option.none) :
    (env.clickFault = some Fault.notInteractable →
      (click_element env).2 = 1 ∧
      ((click_element env).1 = true ↔
        (env.refind = Option.none ∧ env.jsClickRaises = false))) ∧
    (env.clickFault = some Fault.stale → click_element env = (false, 0)) := by
  obtain ⟨f, cf, rf, js⟩ := env
  subst hfind
  constructor
  · intro h
    subst h
    cases rf <;> cases js <;> simp [click_element]
  · intro h
    subst h
    simp [click_element]

/-- Witness for C4 at concrete worlds: a not-interactable native click with a
successful scripted fallback counts one fallback and succeeds; a stale click
fails with zero fallbacks. -/
theorem click_fallback_contract_witness :
    (click_element ⟨Option.none, some Fault.notInteractable, Option.none,
      false⟩).2 = 1 ∧
    (click_element ⟨Option.none, some Fault.notInteractable, Option.none,
      false⟩).1 = true ∧
    click_element ⟨Option.none, some Fault.stale, Option.none, false⟩ =
      (false, 0) :=
  ⟨((click_fallback_contract ⟨Option.none, some Fault.notInteractable,
      Option.none, false⟩ rfl).1 rfl).1,
   ((click_fallback_contract ⟨Option.none, some Fault.notInteractable,
      Option.none, false⟩ rfl).1 rfl).2.mpr ⟨rfl, rfl⟩,
   (click_fallback_contract ⟨Option.none, some Fault.stale, Option.none,
      false⟩ rfl).2 rfl⟩

/-- C7: a `scroll` with a direction recognized by none of the four branches
(the comparison lower-cases the value first, matching the code) reports
failure, and at the interpreter level such a scroll step completes as a
reported-failure step with an empty store-write list (the Extracted-Data Store
is untouched) rather than as a raised exception — nothing propagates past the
action boundary. -/
theorem scroll_unrecognized_direction (ex : Bool) (d : String) (px : Int)
    (o : StepOutcome) (i : Nat) (step : Step)
    (h1 : pyLower d ≠ "down") (h2 : pyLower d ≠ "up")
    (h3 : pyLower d ≠ "to_bottom") (h4 : pyLower d ≠ "to_top") :
    scroll_window ex (Value.str d) px = false ∧
    (step.pyGet "action" = Value.str "scroll" →
      step.pyGetD "direction" (Value.str "down") = Value.str d →
      pyInt (step.pyGetD "pixels" (Value.int 0)) = Except.ok px →
      runStep o i step = StepOut.done false [] [Op.scroll (Value.str d) px]) := by
  have hs : ∀ b : Bool, scroll_window b (Value.str d) px = false := by
    intro b
    simp [scroll_window, h1, h2, h3, h4]
  refine ⟨hs ex, ?_⟩
  intro ha hd hp
  simp [runStep, ha, hd, hp, hs o.scrollExecRaises]

/-- Witness for C7: direction "sideways" on an otherwise benign world. -/
theorem scroll_unrecognized_direction_witness :
    scroll_window false (Value.str "sideways") 0 = false ∧
    runStep defaultOutcome 0
      [("action", Value.str "scroll"), ("direction", Value.str "sideways")] =
      StepOut.done false [] [Op.scroll (Value.str "sideways") 0] :=
  ⟨(scroll_unrecognized_direction false "sideways" 0 defaultOutcome 0
      [("action", Value.str "scroll"), ("direction", Value.str "sideways")]
      (by decide) (by decide) (by decide) (by decide)).1,
   (scroll_unrecognized_direction false "sideways" 0 defaultOutcome 0
      [("action", Value.str "scroll"), ("direction", Value.str "sideways")]
      (by decide) (by decide) (by decide) (by decide)).2 (by decide)
      (by decide) (by decide)⟩

/-- C8: every `type` call that reaches text injection (the text send-keys
event is in its keystroke trace) injects no submit keystroke when
`enter_after` is false, and injects exactly one submit keystroke, after the
text, when `enter_after` is true. -/
theorem type_enter_contract (env : TypeEnv) (text : Value) (enter : Bool)
    (hreach : TEvent.keys text ∈ (type_text env text enter).2) :
    (enter = false → TEvent.submit ∉ (type_text env text enter).2) ∧
    (enter = true →
      (type_text env text enter).2.count TEvent.submit = 1 ∧
      ∃ l1 l2, (type_text env text enter).2 = l1 ++ TEvent.submit :: l2 ∧
        TEvent.keys text ∈ l1) := by
  obtain ⟨f, d1, e1, d2, e2⟩ := env
  cases f with
  | some fault => simp [type_text] at hreach
  | none =>
    by_cases hint : (d1 && e1) || (d2 && e2)
    · constructor
      · intro he
        subst he
        simp [type_text, hint, List.count_cons]
      · intro he
        subst he
        refine ⟨by simp [type_text, hint, List.count_cons], ?_⟩
        refine ⟨[TEvent.cleared, TEvent.keys text], [], ?_, by simp⟩
        simp [type_text, hint]
    · simp [type_text, hint] at hreach

/-- A step whose `action` discriminant is `"error"` is interpreted as a
planner-signaled stop carrying `step.get('message')`, never dispatched. -/
theorem runStep_error_variant (o : StepOutcome) (i : Nat) (step : Step)
    (h : step.pyGet "action" = Value.str "error") :
    runStep o i step = StepOut.planError (step.pyGet "message") := by
  simp [runStep, h]

/-- Conversely, a planner-signaled stop only arises from an `error`-variant
step, and carries exactly that step's `message` value. -/
theorem runStep_planError_inv (o : StepOutcome) (i : Nat) (step : Step)
    (m : Value) (h : runStep o i step = StepOut.planError m) :
    step.pyGet "action" = Value.str "error" ∧ m = step.pyGet "message" := by
  simp only [runStep] at h
  repeat' split at h
  all_goals try (cases h)
  all_goals exact ⟨by assumption, rfl⟩

/-- Core of C2, generalized over the start index: with an `error`-variant
record sitting after `xs`, the run never succeeds, never dispatches an
operation at or beyond the record's position, and — whenever the prefix `xs`
fully succeeds, so the record is reached — aborts with the record's own
message. -/
theorem execGo_error_at (env : Env) (step : Step)
    (hstep : step.pyGet "action" = Value.str "error") :
    ∀ (xs ys : List Step) (k : Nat) (s : Store),
      (execGo env (xs ++ step :: ys) k s).success = false ∧
      (∀ p ∈ (execGo env (xs ++ step :: ys) k s).trace, p.1 < k + xs.length) ∧
      ((execGo env xs k s).success = true →
        (execGo env (xs ++ step :: ys) k s).errMsg = step.pyGet "message") := by
  intro xs
  induction xs with
  | nil =>
    intro ys k s
    have hr := runStep_error_variant (env k) k step hstep
    refine ⟨by simp [execGo, hr], ?_, fun _ => by simp [execGo, hr]⟩
    intro p hp
    simp [execGo, hr] at hp
  | cons x rest ih =>
    intro ys k s
    cases hcase : runStep (env k) k x with
    | done b ws evs =>
      cases b with
      | true =>
        obtain ⟨ih1, ih2, ih3⟩ := ih ys (k + 1) (applyWrites s ws)
        refine ⟨?_, ?_, ?_⟩
        · show (execGo env (x :: (rest ++ step :: ys)) k s).success = false
          simp [execGo, hcase, ih1]
        · intro p hp
          show p.1 < k + (x :: rest).length
          have hp' : p ∈ (execGo env (x :: (rest ++ step :: ys)) k s).trace := hp
          simp only [execGo, hcase, List.mem_append, List.mem_map] at hp'
          rcases hp' with ⟨op, _, hop⟩ | hp'
          · simp only [← hop, List.length_cons]
            omega
          · have := ih2 p hp'
            simp only [List.length_cons]
            omega
        · intro hpre
          have hpre' : (execGo env rest (k + 1) (applyWrites s ws)).success
              = true := by
            simpa [execGo, hcase] using hpre
          show (execGo env (x :: (rest ++ step :: ys)) k s).errMsg = _
          simp [execGo, hcase, ih3 hpre']
      | false =>
        refine ⟨by simp [execGo, hcase], ?_, ?_⟩
        · intro p hp
          show p.1 < k + (x :: rest).length
          have hp' : p ∈ (execGo env (x :: (rest ++ step :: ys)) k s).trace := hp
          simp only [execGo, hcase, List.mem_map] at hp'
          obtain ⟨op, _, hop⟩ := hp'
          simp only [← hop, List.length_cons]
          omega
        · intro hpre
          simp [execGo, hcase] at hpre
    | planError m =>
      refine ⟨by simp [execGo, hcase], ?_, ?_⟩
      · intro p hp
        have hp' : p ∈ (execGo env (x :: (rest ++ step :: ys)) k s).trace := hp
        simp [execGo, hcase] at hp'
      · intro hpre
        simp [execGo, hcase] at hpre
    | unknownAction a =>
      refine ⟨by simp [execGo, hcase], ?_, ?_⟩
      · intro p hp
        have hp' : p ∈ (execGo env (x :: (rest ++ step :: ys)) k s).trace := hp
        simp [execGo, hcase] at hp'
      · intro hpre
        simp [execGo, hcase] at hpre
    | raised e evs =>
      refine ⟨by simp [execGo, hcase], ?_, ?_⟩
      · intro p hp
        show p.1 < k + (x :: rest).length
        have hp' : p ∈ (execGo env (x :: (rest ++ step :: ys)) k s).trace := hp
        simp only [execGo, hcase, List.mem_map] at hp'
        obtain ⟨op, _, hop⟩ := hp'
        simp only [← hop, List.length_cons]
        omega
      · intro hpre
        simp [execGo, hcase] at hpre

/-- Core of C5, generalized over the start index: when every step's dispatch
reports success, the run succeeds with no error message. -/
theorem execGo_all_ok (env : Env) :
    ∀ (xs : List Step) (k : Nat) (s : Store),
      (∀ j (h : j < xs.length),
        (runStep (env (k + j)) (k + j) (xs.get ⟨j, h⟩)).isOk = true) →
      (execGo env xs k s).success = true ∧
      (execGo env xs k s).errMsg = Value.none := by
  intro xs
  induction xs with
  | nil => intro k s _; exact ⟨rfl, rfl⟩
  | cons x rest ih =>
    intro k s hok
    have h0 := hok 0 (by simp)
    simp only [Nat.add_zero, List.get] at h0
    cases hcase : runStep (env k) k x with
    | done b ws evs =>
      cases b with
      | true =>
        have ih' := ih (k + 1) (applyWrites s ws) ?_
        · exact ⟨by simp [execGo, hcase, ih'.1], by simp [execGo, hcase, ih'.2]⟩
        · intro j hj
          have hj' : j + 1 < (x :: rest).length := by
            simp only [List.length_cons]
            omega
          have := hok (j + 1) hj'
          have harith : k + (j + 1) = k + 1 + j := by omega
          rw [harith] at this
          simpa [List.get] using this
      | false => rw [hcase] at h0; simp [StepOut.isOk] at h0
    | planError m => rw [hcase] at h0; simp [StepOut.isOk] at h0
    | unknownAction a => rw [hcase] at h0; simp [StepOut.isOk] at h0
    | raised e evs => rw [hcase] at h0; simp [StepOut.isOk] at h0

/-- Core of C9, generalized over the start index: a successful run carries no
message, and a failed run carries no message only when it aborted on an
`error`-variant record whose `message` is absent or `None`. -/
theorem execGo_verdict (env : Env) :
    ∀ (xs : List Step) (k : Nat) (s : Store),
      ((execGo env xs k s).success = true →
        (execGo env xs k s).errMsg = Value.none) ∧
      ((execGo env xs k s).success = false →
        (execGo env xs k s).errMsg = Value.none →
        ∃ st, st ∈ xs ∧ st.pyGet "action" = Value.str "error" ∧
          st.pyGet "message" = Value.none) := by
  intro xs
  induction xs with
  | nil =>
    intro k s
    exact ⟨fun _ => rfl, fun h _ => by simp [execGo] at h⟩
  | cons x rest ih =>
    intro k s
    cases hcase : runStep (env k) k x with
    | done b ws evs =>
      cases b with
      | true =>
        obtain ⟨ih1, ih2⟩ := ih (k + 1) (applyWrites s ws)
        constructor
        · intro h
          have h' : (execGo env rest (k + 1) (applyWrites s ws)).success
              = true := by simpa [execGo, hcase] using h
          simpa [execGo, hcase] using ih1 h'
        · intro h hm
          have h' : (execGo env rest (k + 1) (applyWrites s ws)).success
              = false := by simpa [execGo, hcase] using h
          have hm' : (execGo env rest (k + 1) (applyWrites s ws)).errMsg
              = Value.none := by simpa [execGo, hcase] using hm
          obtain ⟨st, hmem, h1, h2⟩ := ih2 h' hm'
          exact ⟨st, List.mem_cons_of_mem _ hmem, h1, h2⟩
      | false =>
        constructor
        · intro h; simp [execGo, hcase] at h
        · intro h hm; simp [execGo, hcase] at hm
    | planError m =>
      constructor
      · intro h; simp [execGo, hcase] at h
      · intro h hm
        have hm' : m = Value.none := by simpa [execGo, hcase] using hm
        obtain ⟨he, hmsg⟩ := runStep_planError_inv (env k) k x m hcase
        refine ⟨x, List.mem_cons_self _ _, he, ?_⟩
        rw [← hmsg, hm']
    | unknownAction a =>
      constructor
      · intro h; simp [execGo, hcase] at h
      · intro h hm; simp [execGo, hcase] at hm
    | raised e evs =>
      constructor
      · intro h; simp [execGo, hcase] at h
      · intro h hm; simp [execGo, hcase] at hm

/-- Witness for C8: typing "hello" into an interactable element, with and
without `enter_after`. -/
theorem type_enter_contract_witness :
    TEvent.submit ∉
      (type_text ⟨Option.none, true, true, true, true⟩
        (Value.str "hello") false).2 ∧
    (type_text ⟨Option.none, true, true, true, true⟩
      (Value.str "hello") true).2.count TEvent.submit = 1 :=
  ⟨(type_enter_contract ⟨Option.none, true, true, true, true⟩
      (Value.str "hello") false (by decide)).1 rfl,
   ((type_enter_contract ⟨Option.none, true, true, true, true⟩
      (Value.str "hello") true (by decide)).2 rfl).1⟩

/-- C1: when execution reaches step `i` (every earlier step's dispatch
succeeded) and the operation dispatched for step `i` reports failure,
`execute_plan` returns the verdict `(False, m)` where `m` is the message
naming the failing action and its parameters
(`f"Action '...' failed. Params: ...."`), and no operation of any step after
`i` is ever dispatched (every recorded dispatch carries an index `≤ i`). -/
theorem op_failure_aborts (env : Env) (pre : List Step) (step : Step)
    (post : List Step) (s : Store)
    (hpre : (execGo env pre 0 s).success = true)
    (hfail : (runStep (env pre.length) pre.length step).isFail = true) :
    (execute_plan env true (pre ++ step :: post) s).success = false ∧
    (execute_plan env true (pre ++ step :: post) s).errMsg =
      Value.str ("Action '" ++ (step.pyGet "action").pyStr ++
        "' failed. Params: " ++ step.pyRepr ++ ".") ∧
    ∀ p ∈ (execute_plan env true (pre ++ step :: post) s).trace,
      p.1 ≤ pre.length := by
  have happ := execGo_append_ok env pre (step :: post) 0 s hpre
  rw [show (0 : Nat) + pre.length = pre.length from by omega] at happ
  cases hcase : runStep (env pre.length) pre.length step with
  | done b ws evs =>
    cases b with
    | true => rw [hcase] at hfail; simp [StepOut.isFail] at hfail
    | false =>
      refine ⟨?_, ?_, ?_⟩
      · simp [execute_plan, happ, execGo, hcase]
      · simp [execute_plan, happ, execGo, hcase]
      · intro p hp
        simp only [execute_plan, if_pos, happ, execGo, hcase,
          List.mem_append, List.mem_map] at hp
        rcases hp with hp | ⟨op, _, hop⟩
        · have := execGo_trace_bound env pre 0 s p hp
          omega
        · simp only [← hop]
          omega
  | planError m => rw [hcase] at hfail; simp [StepOut.isFail] at hfail
  | unknownAction a => rw [hcase] at hfail; simp [StepOut.isFail] at hfail
  | raised e evs => rw [hcase] at hfail; simp [StepOut.isFail] at hfail

/-- Witness for C1: a click whose native click raises a generic driver fault
as the only plan step; the verdict is a failure naming the click action and
its parameter dict. -/
theorem op_failure_aborts_witness :
    (execute_plan clickFailEnv true [clickStep] []).success = false ∧
    (execute_plan clickFailEnv true [clickStep] []).errMsg =
      Value.str ("Action '" ++ (clickStep.pyGet "action").pyStr ++
        "' failed. Params: " ++ clickStep.pyRepr ++ ".") :=
  ⟨(op_failure_aborts clickFailEnv [] clickStep [] [] (by decide)
      (by decide)).1,
   (op_failure_aborts clickFailEnv [] clickStep [] [] (by decide)
      (by decide)).2.1⟩

/-- C2: for a plan containing an `error`-variant record at position `i`
(written `pre ++ step :: post` with `i = pre.length`), `execute_plan` never
succeeds, never dispatches the error record itself nor any step after it as a
browser operation (every recorded dispatch carries an index `< i`), and —
whenever the record is reached, i.e. all earlier steps succeeded — returns
`(False, m)` with `m` the record's `message` value passed through verbatim. -/
theorem error_variant_aborts (env : Env) (pre : List Step) (step : Step)
    (post : List Step) (s : Store)
    (hstep : step.pyGet "action" = Value.str "error") :
    (execute_plan env true (pre ++ step :: post) s).success = false ∧
    (∀ p ∈ (execute_plan env true (pre ++ step :: post) s).trace,
      p.1 < pre.length) ∧
    ((execGo env pre 0 s).success = true →
      (execute_plan env true (pre ++ step :: post) s).errMsg =
        step.pyGet "message") := by
  obtain ⟨h1, h2, h3⟩ := execGo_error_at env step hstep pre post 0 s
  refine ⟨by simpa [execute_plan] using h1, ?_, ?_⟩
  · intro p hp
    have := h2 p (by simpa [execute_plan] using hp)
    omega
  · intro hpre
    simpa [execute_plan] using h3 hpre

/-- Witness for C2: an error record with message "planner refused" followed by
a click step; the verdict carries the message verbatim. -/
theorem error_variant_aborts_witness :
    (execute_plan defEnv true [errorStep, clickStep] []).success = false ∧
    (execute_plan defEnv true [errorStep, clickStep] []).errMsg =
      Value.str "planner refused" :=
  ⟨(error_variant_aborts defEnv [] errorStep [clickStep] [] (by decide)).1,
   (error_variant_aborts defEnv [] errorStep [clickStep] [] (by decide)).2.2
     (by decide)⟩

/-- C5: when every step's dispatched operation reports success (vacuously so
for the empty plan; `error`-variant and unknown-action steps are excluded
because they never produce a success report), `execute_plan` returns the
verdict `(True, None)` — success with no error message. -/
theorem all_steps_succeed (env : Env) (plan : List Step) (s : Store)
    (hok : ∀ j (h : j < plan.length),
      (runStep (env j) j (plan.get ⟨j, h⟩)).isOk = true) :
    (execute_plan env true plan s).success = true ∧
    (execute_plan env true plan s).errMsg = Value.none := by
  have := execGo_all_ok env plan 0 s (by intro j hj; simpa using hok j hj)
  simpa [execute_plan] using this

/-- Witness for C5: the five-action demo plan in the benign world. -/
theorem all_steps_succeed_witness :
    (execute_plan defEnv true demoPlan []).success = true ∧
    (execute_plan defEnv true demoPlan []).errMsg = Value.none :=
  all_steps_succeed defEnv demoPlan [] (by decide)

/-- C6 as amended: `wait` returns `True` for every non-negative seconds value;
a `seconds` entry that integer conversion rejects — a missing key, a
non-numeric string, `None` — is rejected in the interpreter's parameter
handling, before `wait` is dispatched (no `wait` operation is recorded); but a
negative integer is NOT rejected before `wait`: it is dispatched to `wait`
(the dispatch is recorded) and the rejection happens inside `wait`, via the
sleep primitive's `ValueError`. -/
theorem wait_contract_amended (n m : Int) (o : StepOutcome) (i : Nat)
    (step : Step) (e : PyExc) (v : Value) :
    (0 ≤ n → wait n = Except.ok true) ∧
    (m < 0 → wait m = Except.error
      (PyExc.valueError "sleep length must be non-negative")) ∧
    (step.pyGet "action" = Value.str "wait" →
      step.getItem "seconds" = Except.error e →
      runStep o i step = StepOut.raised e []) ∧
    (step.pyGet "action" = Value.str "wait" →
      step.getItem "seconds" = Except.ok v → pyInt v = Except.error e →
      runStep o i step = StepOut.raised e []) ∧
    (step.pyGet "action" = Value.str "wait" →
      step.getItem "seconds" = Except.ok v → pyInt v = Except.ok m → m < 0 →
      runStep o i step = StepOut.raised
        (PyExc.valueError "sleep length must be non-negative") [Op.wait m]) := by
  refine ⟨?_, ?_, ?_, ?_, ?_⟩
  · intro h
    simp only [wait]
    rw [if_neg (by omega)]
  · intro h
    simp only [wait]
    rw [if_pos h]
  · intro ha hs
    simp [runStep, ha, hs]
  · intro ha hs hv
    simp [runStep, ha, hs, hv]
  · intro ha hs hv hm
    have hw : wait m = Except.error
        (PyExc.valueError "sleep length must be non-negative") := by
      simp only [wait]
      rw [if_pos hm]
    simp [runStep, ha, hs, hv, hw]

/-- Witness for C6's amended claim: `wait 2` succeeds; `wait (-1)` raises
inside `wait`; a missing `seconds` key and a non-numeric string are rejected
before dispatch (no `wait` operation recorded); `seconds = -1` is dispatched
and then raises. -/
theorem wait_contract_amended_witness :
    wait 2 = Except.ok true ∧
    wait (-1) = Except.error
      (PyExc.valueError "sleep length must be non-negative") ∧
    runStep defaultOutcome 0 [("action", Value.str "wait")] =
      StepOut.raised (PyExc.keyError "seconds") [] ∧
    runStep defaultOutcome 0
      [("action", Value.str "wait"), ("seconds", Value.str "abc")] =
      StepOut.raised
        (PyExc.valueError "invalid literal for int() with base 10: 'abc'") [] ∧
    runStep defaultOutcome 0
      [("action", Value.str "wait"), ("seconds", Value.int (-1))] =
      StepOut.raised
        (PyExc.valueError "sleep length must be non-negative") [Op.wait (-1)] :=
  ⟨(wait_contract_amended 2 (-1) defaultOutcome 0 [] (PyExc.keyError "seconds")
      Value.none).1 (by omega),
   (wait_contract_amended 2 (-1) defaultOutcome 0 [] (PyExc.keyError "seconds")
      Value.none).2.1 (by omega),
   (wait_contract_amended 2 (-1) defaultOutcome 0 [("action", Value.str "wait")]
      (PyExc.keyError "seconds") Value.none).2.2.1 (by decide) (by decide),
   (wait_contract_amended 2 (-1) defaultOutcome 0
      [("action", Value.str "wait"), ("seconds", Value.str "abc")]
      (PyExc.valueError "invalid literal for int() with base 10: 'abc'")
      (Value.str "abc")).2.2.2.1 (by decide) (by decide) (by decide),
   (wait_contract_amended 2 (-1) defaultOutcome 0
      [("action", Value.str "wait"), ("seconds", Value.int (-1))]
      (PyExc.keyError "seconds") (Value.int (-1))).2.2.2.2 (by decide)
      (by decide) (by decide) (by omega)⟩

/-- Counterexample to C6 as stated: `seconds = -1` is not a non-negative
integer, yet it is not rejected before the wait operation is reached — the
`wait` operation IS dispatched with `-1` (the dispatch appears in the trace),
and the resulting `ValueError` arises inside `wait` (from the sleep
primitive), only then caught by the interpreter's parameter-error handler. -/
theorem wait_rejected_inside_cex :
    (0, Op.wait (-1)) ∈ (execute_plan defEnv true
      [[("action", Value.str "wait"), ("seconds", Value.int (-1))]] []).trace ∧
    (execute_plan defEnv true
      [[("action", Value.str "wait"), ("seconds", Value.int (-1))]] []).success
      = false ∧
    (execute_plan defEnv true
      [[("action", Value.str "wait"), ("seconds", Value.int (-1))]] []).errMsg
      = Value.str
        "Invalid parameter for action 'wait': sleep length must be non-negative." := by
  decide

/-- C9 as amended: a success verdict never carries a message; a failure
verdict always carries one EXCEPT when the plan aborted on an `error`-variant
record whose `message` field is absent or `None`, in which case `execute_plan`
returns `(False, None)`. -/
theorem verdict_coherence_amended (env : Env) (d : Bool) (plan : List Step)
    (s : Store) :
    ((execute_plan env d plan s).success = true →
      (execute_plan env d plan s).errMsg = Value.none) ∧
    ((execute_plan env d plan s).success = false →
      (execute_plan env d plan s).errMsg = Value.none →
      ∃ st, st ∈ plan ∧ st.pyGet "action" = Value.str "error" ∧
        st.pyGet "message" = Value.none) := by
  cases d with
  | true =>
    obtain ⟨h1, h2⟩ := execGo_verdict env plan 0 s
    exact ⟨by simpa [execute_plan] using h1,
      by simpa [execute_plan] using h2⟩
  | false =>
    constructor
    · intro h
      simp [execute_plan] at h
    · intro h hm
      simp [execute_plan] at hm

/-- Witness for C9's amended claim: the empty plan succeeds with no message,
and a message-less error record yields the exceptional `(False, None)` case. -/
theorem verdict_coherence_amended_witness :
    (execute_plan defEnv true [] []).errMsg = Value.none ∧
    ∃ st, st ∈ [[("action", Value.str "error")]] ∧
      Step.pyGet st "action" = Value.str "error" ∧
      Step.pyGet st "message" = Value.none :=
  ⟨(verdict_coherence_amended defEnv true [] []).1 (by decide),
   (verdict_coherence_amended defEnv true [[("action", Value.str "error")]]
      []).2 (by decide) (by decide)⟩

/-- Counterexample to C9 as stated: a plan whose only step is an
`error`-variant record with no `message` key returns `(False, None)` — a
failure verdict carrying no message, so success is NOT equivalent to the
message being `None`. -/
theorem verdict_coherence_cex :
    ¬ ((execute_plan defEnv true [[("action", Value.str "error")]] []).success
        = true ↔
       (execute_plan defEnv true [[("action", Value.str "error")]] []).errMsg
        = Value.none) := by
  decide

/-- C10: `execute_plan` is a total function into verdicts (never re-raises),
and whenever execution reaches a step whose processing raises any exception —
a missing key (`KeyError`), an invalid value (`ValueError`), or any other
exception — the fault is caught inside the step loop and converted into the
aborted verdict `(False, m)` with the handler's descriptive message naming
the action, and no later step is dispatched. -/
theorem exec_exception_converted (env : Env) (pre : List Step) (step : Step)
    (post : List Step) (s : Store) (e : PyExc) (evs : List Op)
    (hpre : (execGo env pre 0 s).success = true)
    (hraise : runStep (env pre.length) pre.length step =
      StepOut.raised e evs) :
    (execute_plan env true (pre ++ step :: post) s).success = false ∧
    (execute_plan env true (pre ++ step :: post) s).errMsg =
      Value.str (excMsg (step.pyGet "action") e) ∧
    ∀ p ∈ (execute_plan env true (pre ++ step :: post) s).trace,
      p.1 ≤ pre.length := by
  have happ := execGo_append_ok env pre (step :: post) 0 s hpre
  rw [show (0 : Nat) + pre.length = pre.length from by omega] at happ
  refine ⟨?_, ?_, ?_⟩
  · simp [execute_plan, happ, execGo, hraise]
  · simp [execute_plan, happ, execGo, hraise]
  · intro p hp
    simp only [execute_plan, if_pos, happ, execGo, hraise,
      List.mem_append, List.mem_map] at hp
    rcases hp with hp | ⟨op, _, hop⟩
    · have := execGo_trace_bound env pre 0 s p hp
      omega
    · simp only [← hop]
      omega

/-- Witness for C10: a type step missing its `selector_value` key raises
`KeyError`, converted into the missing-parameter abort message. -/
theorem exec_exception_converted_witness :
    (execute_plan defEnv true [typoStep] []).success = false ∧
    (execute_plan defEnv true [typoStep] []).errMsg =
      Value.str (excMsg (typoStep.pyGet "action")
        (PyExc.keyError "selector_value")) :=
  ⟨(exec_exception_converted defEnv [] typoStep [] []
      (PyExc.keyError "selector_value") [] (by decide) (by decide)).1,
   (exec_exception_converted defEnv [] typoStep [] []
      (PyExc.keyError "selector_value") [] (by decide) (by decide)).2.1⟩

end Agent
